import Mathlib

/-!
Verification development for the ai-calendar-assistant repository.

The repository is a Next.js calendar assistant.  The definitions below are a
shallow embedding of the server-side route handlers:

* the date range resolver `calculateDateRange` of the chat route,
* the delete search filter cascade and outcome mapping of the chat route,
* the multi-calendar read merge of the chat route,
* the JSON-parse fallback of the chat route,
* the event construction of the calendar events route (`POST`),
* the text sanitization of the text-to-speech route.

JavaScript `Date` objects holding a civil date (constructed as
`new Date(year, monthIndex, day)` and mutated via `setDate`) are embedded as
rata-die day numbers (`Int`, days since 1970-01-01), with conversions
`daysFromCivil` / `civilFromDays` following the standard civil-calendar
algorithms.  `new Date(y, mIdx, d)` normalizes out-of-range month/day exactly
as `jsMkDay` does; `setDate (getDate () + n)` is rata-die addition;
`getDay ()` is `dayOfWeek`.
-/

namespace CalAssist

/-- Day count since 1970-01-01 for a civil date with a valid month (1..12);
the day component may be out of range (the formula is affine in `d`),
matching JavaScript date normalization. -/
def daysFromCivilValid (y m d : Int) : Int :=
  let y' := if m ≤ 2 then y - 1 else y
  let era := y'.fdiv 400
  let yoe := y' - era * 400
  let mp := if m > 2 then m - 3 else m + 9
  let doy := (153 * mp + 2).fdiv 5 + d - 1
  let doe := yoe * 365 + yoe.fdiv 4 - yoe.fdiv 100 + doy
  era * 146097 + doe - 719468

/-- Embedding of `new Date(y, monthIndex, day)` (JavaScript month index is
0-based and is normalized into the year). -/
def jsMkDay (y monthIndex d : Int) : Int :=
  let y' := y + monthIndex.fdiv 12
  let m' := monthIndex.emod 12 + 1
  daysFromCivilValid y' m' d

/-- Day count since 1970-01-01 for a civil date given with a 1-based month,
normalizing out-of-range components the way JavaScript does. -/
def daysFromCivil (y m d : Int) : Int :=
  jsMkDay y (m - 1) d

/-- Civil date (year, month, day) of a rata-die day number. -/
def civilFromDays (z : Int) : Int × Int × Int :=
  let z' := z + 719468
  let era := z'.fdiv 146097
  let doe := (z' - era * 146097).toNat
  let yoe := (doe - doe / 1460 + doe / 36524 - doe / 146096) / 365
  let doy := doe - (365 * yoe + yoe / 4 - yoe / 100)
  let mp := (5 * doy + 2) / 153
  let d := doy - (153 * mp + 2) / 5 + 1
  let m := if mp < 10 then mp + 3 else mp - 9
  let y := (yoe : Int) + era * 400 + (if m ≤ 2 then 1 else 0)
  (y, (m : Int), (d : Int))

/-- Embedding of JavaScript `Date.prototype.getDay`: 0 = Sunday .. 6 = Saturday. -/
def dayOfWeek (z : Int) : Int :=
  (z + 4).emod 7

/-- Embedding of `String(n).padStart(2, "0")` for the nonnegative numbers
produced by the date code. -/
def pad2 (n : Int) : String :=
  if n < 10 then "0" ++ toString n else toString n

/-- Embedding of the `formatDate` helper of the chat route: renders a civil
date as `YYYY-MM-DD` (year unpadded, month/day zero-padded to two digits). -/
def formatDate (z : Int) : String :=
  let c := civilFromDays z
  toString c.1 ++ "-" ++ pad2 c.2.1 ++ "-" ++ pad2 c.2.2

/-- Numeric value of a decimal digit character. -/
def digitVal (c : Char) : Int :=
  (c.toNat : Int) - 48

/-- Embedding of the regex fragment `(\d{4})-(\d{2})-(\d{2})` anchored on a
whole character list: returns the parsed year, month, day components. -/
def matchIsoChars : List Char → Option (Int × Int × Int)
  | [y1, y2, y3, y4, '-', m1, m2, '-', d1, d2] =>
    if (y1.isDigit && y2.isDigit && y3.isDigit && y4.isDigit &&
        m1.isDigit && m2.isDigit && d1.isDigit && d2.isDigit) then
      some (digitVal y1 * 1000 + digitVal y2 * 100 + digitVal y3 * 10 + digitVal y4,
            digitVal m1 * 10 + digitVal m2,
            digitVal d1 * 10 + digitVal d2)
    else none
  | _ => none

/-- Embedding of `rangeType.match(/^(\d{4})-(\d{2})-(\d{2})$/)`. -/
def matchIsoDate (s : String) : Option (Int × Int × Int) :=
  matchIsoChars s.toList

/-- Embedding of `rangeType.match(/^week_of:(\d{4})-(\d{2})-(\d{2})$/)`. -/
def matchWeekOf (s : String) : Option (Int × Int × Int) :=
  match s.toList with
  | 'w' :: 'e' :: 'e' :: 'k' :: '_' :: 'o' :: 'f' :: ':' :: rest => matchIsoChars rest
  | _ => none

/-- Embedding of `String.prototype.toLowerCase` (ASCII case mapping; the
strings it is applied to — range tokens and event titles — are compared
against ASCII literals in the source). -/
def jsToLower (s : String) : String :=
  String.mk (s.toList.map Char.toLower)

/-- Result type of `calculateDateRange`: both bounds as rendered strings,
mirroring the `{ timeMin, timeMax }` object of the source. -/
structure DateRange where
  timeMin : String
  timeMax : String
deriving DecidableEq, Repr

/-- Embedding of the `switch (rangeType.toLowerCase())` statement of
`calculateDateRange`: maps the lowercased token and the current LA civil day
to the start and end day numbers of the range. -/
def rangeDays (t : Int) (s : String) : Int × Int :=
  match s with
  | "today" => (t, t)
  | "yesterday" => (t - 1, t - 1)
  | "tomorrow" => (t + 1, t + 1)
  | "last_week" | "last week" | "past week" => (t - 7, t)
  | "this_week" | "this week" =>
    let dow := dayOfWeek t
    let daysToMonday := if dow == 0 then 6 else dow - 1
    (t - daysToMonday, t - daysToMonday + 6)
  | "next_week" | "next week" =>
    let dow := dayOfWeek t
    let daysUntilMonday := if dow == 0 then 1 else 8 - dow
    (t + daysUntilMonday, t + daysUntilMonday + 6)
  | "last_month" | "last month" | "past month" => (t - 30, t)
  | _ => (t, t + 7)

/-- Embedding of `calculateDateRange` of the chat route.  The LA civil day
`todayLA` (computed in the source from `new Date()` through an
`Intl.DateTimeFormat` in `America/Los_Angeles`) and the DST-dependent offset
string `tzOffset` (computed from the host timezone offsets) are taken as
parameters, since both derive from the ambient clock. -/
def calculateDateRange (todayLA : Int) (tzOffset : String) (rangeType : String) : DateRange :=
  match matchWeekOf rangeType with
  | some (y, m, d) =>
    let target := jsMkDay y (m - 1) d
    let dow := dayOfWeek target
    let sunday := target - dow
    let saturday := sunday + 6
    { timeMin := formatDate sunday ++ "T00:00:00" ++ tzOffset
      timeMax := formatDate saturday ++ "T23:59:59" ++ tzOffset }
  | none =>
    match matchIsoDate rangeType with
    | some _ =>
      { timeMin := rangeType ++ "T00:00:00" ++ tzOffset
        timeMax := rangeType ++ "T23:59:59" ++ tzOffset }
    | none =>
      let p := rangeDays todayLA (jsToLower rangeType)
      { timeMin := formatDate p.1 ++ "T00:00:00" ++ tzOffset
        timeMax := formatDate p.2 ++ "T23:59:59" ++ tzOffset }

/-! ## Calendar events route (`src/app/api/calendars/events/route.ts`, `POST`) -/

/-- Request body of the events `POST` route (interface `EventRequest`).
Optional fields are `Option`; `allDay` is a `Bool` (absent = `false`, matching
JavaScript falsiness of `undefined`). -/
structure EventRequest where
  calendarId : String
  title : String
  description : Option String
  location : Option String
  date : String
  time : Option String
  duration : Option Nat
  allDay : Bool
  recurrence : Option String
deriving DecidableEq, Repr

/-- A Google-calendar start/end object: `{ dateTime?, date?, timeZone? }`. -/
structure GDateTime where
  dateTime : Option String := none
  date : Option String := none
  timeZone : Option String := none
deriving DecidableEq, Repr

/-- The event object sent to the calendar API (interface `GoogleEvent`).
The source field named `end` is called `stop` here (`end` is a Lean keyword). -/
structure GoogleEvent where
  summary : String
  description : Option String
  location : Option String
  start : GDateTime
  stop : GDateTime
  recurrence : Option (List String) := none
deriving DecidableEq, Repr

/-- Outcome of validating and building an event: an error response (all of
which carry HTTP status 400 in the source) or the event object to be posted. -/
inductive BuildResult where
  | invalid (error : String)
  | ok (event : GoogleEvent)
deriving DecidableEq, Repr

/-- JavaScript falsiness of an optional string: absent or empty. -/
def strFalsy (o : Option String) : Bool :=
  match o with
  | none => true
  | some s => s == ""

/-- Embedding of the regex test `^\d{2}:\d{2}$` plus the split into numeric
hour and minute components. -/
def matchHMChars : List Char → Option (Nat × Nat)
  | [h1, h2, ':', m1, m2] =>
    if h1.isDigit && h2.isDigit && m1.isDigit && m2.isDigit then
      some ((h1.toNat - 48) * 10 + (h2.toNat - 48), (m1.toNat - 48) * 10 + (m2.toNat - 48))
    else none
  | _ => none

/-- Version of matchHMChars taking a string. -/
def matchHM (s : String) : Option (Nat × Nat) :=
  matchHMChars s.toList

/-- Embedding of `String(n).padStart(2, "0")` for natural numbers. -/
def pad2Nat (n : Nat) : String :=
  if n < 10 then "0" ++ toString n else toString n

/-- Embedding of `x || undefined` on an optional string field: an empty
string is coerced to `undefined`. -/
def orUndefined (o : Option String) : Option String :=
  match o with
  | some "" => none
  | o => o

/-- The fixed recurrence rule table `recurrenceRules` of the source. -/
def recurrenceRules (r : String) : Option String :=
  match r with
  | "daily" => some "RRULE:FREQ=DAILY"
  | "weekly" => some "RRULE:FREQ=WEEKLY"
  | "monthly" => some "RRULE:FREQ=MONTHLY"
  | "yearly" => some "RRULE:FREQ=YEARLY"
  | _ => none

/-- Embedding of the `if (recurrence && recurrence !== "none")` block that
attaches a recurrence rule to the built event. -/
def withRecurrence (recurrence : Option String) (ev : GoogleEvent) : GoogleEvent :=
  match recurrence with
  | some r =>
    if r != "none" && r != "" then
      match recurrenceRules r with
      | some rule => { ev with recurrence := some [rule] }
      | none => ev
    else ev
  | none => ev

/-- Embedding of the validation and event-construction part of the events
`POST` route (the part before the network call).  The all-day branch embeds
`new Date(date); setDate(getDate() + 1); toISOString().split("T")[0]` as
rata-die `+ 1` on the parsed components, which agrees with the source for
every valid civil date (for an invalid one the source throws on
`toISOString`, outside the modelled domain).  The timed branch embeds the
split/`Number` parse of the already-regex-validated `HH:MM` string. -/
def buildEventObject (body : EventRequest) : BuildResult :=
  if body.calendarId == "" || body.title == "" || body.date == "" then
    .invalid "Missing required fields: calendarId, title, date"
  else
    match matchIsoDate body.date with
    | none => .invalid "Invalid date format. Use YYYY-MM-DD"
    | some (y, m, d) =>
      if !body.allDay && strFalsy body.time then
        .invalid "Time is required for non-all-day events"
      else if !strFalsy body.time && (matchHM ((body.time).getD "")).isNone then
        .invalid "Invalid time format. Use HH:MM"
      else if body.allDay then
        let endDateStr := formatDate (daysFromCivil y m d + 1)
        .ok (withRecurrence body.recurrence
          { summary := body.title
            description := orUndefined body.description
            location := orUndefined body.location
            start := { date := some body.date }
            stop := { date := some endDateStr } })
      else
        match body.time with
        | none => .invalid "Time is required for non-all-day events"
        | some time =>
          match matchHM time with
          | none => .invalid "Invalid time format. Use HH:MM"
          | some (hours, minutes) =>
            let startDateTime := body.date ++ "T" ++ time ++ ":00"
            let eventDuration := match body.duration with
              | some dur => if dur == 0 then 60 else dur
              | none => 60
            let totalMinutes := hours * 60 + minutes + eventDuration
            let endHours := totalMinutes / 60 % 24
            let endMinutes := totalMinutes % 60
            let endTime := pad2Nat endHours ++ ":" ++ pad2Nat endMinutes
            let endDateTime := body.date ++ "T" ++ endTime ++ ":00"
            .ok (withRecurrence body.recurrence
              { summary := body.title
                description := orUndefined body.description
                location := orUndefined body.location
                start := { dateTime := some startDateTime
                           timeZone := some "America/Los_Angeles" }
                stop := { dateTime := some endDateTime
                          timeZone := some "America/Los_Angeles" } })

/-! ## Text-to-speech route (sanitization and validation) -/

/-- The characters stripped by the first `replace` of the TTS route
(`/[📅📌🕐📍✅❌🗑️]/g` → `""`); the trash-can emoji carries a variation
selector, giving the extra `️` entry.  (JavaScript regexes without the
`u` flag operate on UTF-16 units; the model works on Unicode scalars, which
agrees on all inputs made of the listed characters and ordinary text.) -/
def ttsStrippedChars : List Char :=
  ['📅', '📌', '🕐', '📍', '✅', '❌', '🗑', '️']

/-- Leftmost match of the markdown-link regex `\[([^\]]+)\]\([^)]+\)` at the
head of the character list: returns the link text (group 1) and the suffix
after the match. -/
def matchLink : List Char → Option (List Char × List Char)
  | '[' :: rest =>
    let inner := rest.takeWhile (fun c => c ≠ ']')
    match rest.dropWhile (fun c => c ≠ ']') with
    | ']' :: '(' :: rest2 =>
      let url := rest2.takeWhile (fun c => c ≠ ')')
      match rest2.dropWhile (fun c => c ≠ ')') with
      | ')' :: rest3 => if inner.isEmpty || url.isEmpty then none else some (inner, rest3)
      | _ => none
    | _ => none
  | _ => none

/-- Global replacement of markdown links by their text, scanning left to
right as `String.prototype.replace` with a `g` regex does.  Fuel-structured;
every step consumes at least one character, so `fuel = length` suffices. -/
def replaceLinksAux : Nat → List Char → List Char
  | 0, cs => cs
  | _ + 1, [] => []
  | fuel + 1, c :: cs =>
    match matchLink (c :: cs) with
    | some (grp, rest) => grp ++ replaceLinksAux fuel rest
    | none => c :: replaceLinksAux fuel cs

/-- Embedding of `.replace(/\[([^\]]+)\]\([^)]+\)/g, "$1")`. -/
def replaceLinks (cs : List Char) : List Char :=
  replaceLinksAux cs.length cs

/-- Leftmost match of the bold regex `\*\*([^*]+)\*\*` at the head of the
character list. -/
def matchBold : List Char → Option (List Char × List Char)
  | '*' :: '*' :: rest =>
    let inner := rest.takeWhile (fun c => c ≠ '*')
    match rest.dropWhile (fun c => c ≠ '*') with
    | '*' :: '*' :: rest2 => if inner.isEmpty then none else some (inner, rest2)
    | _ => none
  | _ => none

/-- Fuel-structured global replacement for `matchBold`. -/
def replaceBoldAux : Nat → List Char → List Char
  | 0, cs => cs
  | _ + 1, [] => []
  | fuel + 1, c :: cs =>
    match matchBold (c :: cs) with
    | some (grp, rest) => grp ++ replaceBoldAux fuel rest
    | none => c :: replaceBoldAux fuel cs

/-- Embedding of `.replace(/\*\*([^*]+)\*\*/g, "$1")`. -/
def replaceBold (cs : List Char) : List Char :=
  replaceBoldAux cs.length cs

/-- Embedding of `.replace(/\n+/g, ". ")`: every maximal newline run becomes
a period and a space. -/
def collapseNewlinesAux : Nat → List Char → List Char
  | 0, cs => cs
  | _ + 1, [] => []
  | fuel + 1, c :: cs =>
    if c = '\n' then '.' :: ' ' :: collapseNewlinesAux fuel (cs.dropWhile (fun x => x = '\n'))
    else c :: collapseNewlinesAux fuel cs

/-- Version of collapseNewlinesAux with enough fuel. -/
def collapseNewlines (cs : List Char) : List Char :=
  collapseNewlinesAux cs.length cs

/-- Embedding of `String.prototype.trim`: drop whitespace characters from
both ends. -/
def trimChars (cs : List Char) : List Char :=
  ((cs.dropWhile Char.isWhitespace).reverse.dropWhile Char.isWhitespace).reverse

/-- Embedding of the `cleanText` pipeline of the TTS route: strip the emoji
characters, reduce markdown links and bold to plain text, collapse newline
runs to `". "`, and trim surrounding whitespace. -/
def cleanTextOf (text : String) : String :=
  let step1 := text.toList.filter (fun c => !ttsStrippedChars.contains c)
  let step2 := replaceLinks step1
  let step3 := replaceBold step2
  let step4 := collapseNewlines step3
  String.mk (trimChars step4)

/-- The `text` field of the TTS request body as JavaScript sees it: absent
(or another falsy non-string), present but not a string, or a string. -/
inductive TtsText where
  | missing
  | notString
  | strVal (s : String)
deriving DecidableEq, Repr

/-- Outcome of the TTS route before the network call: one of the two
validation errors (both HTTP 400 in the source) or a synthesis request
carrying the sanitized text. -/
inductive TtsOutcome where
  | errTextRequired
  | errNoSpeakable
  | synthesize (cleanText : String)
deriving DecidableEq, Repr

/-- Embedding of the validation part of the TTS `POST` route: the
`!text || typeof text !== "string"` guard (the empty string is falsy and
hits this first guard), then sanitization, then the `!cleanText` guard;
only a `synthesize` outcome reaches the speech engine. -/
def ttsValidate (text : TtsText) : TtsOutcome :=
  match text with
  | .missing => .errTextRequired
  | .notString => .errTextRequired
  | .strVal s =>
    if s == "" then .errTextRequired
    else
      let cleanText := cleanTextOf s
      if cleanText == "" then .errNoSpeakable
      else .synthesize cleanText

/-! ## Chat route: data model and JSON-parse fallback -/

/-- Interface `AppointmentData` of the chat route. -/
structure AppointmentData where
  date : Option String
  time : Option String
  title : Option String
  description : Option String
  duration : Nat
  needsClarification : Bool
  clarificationMessage : Option String
deriving DecidableEq, Repr

/-- Interface `DeleteSearch` of the chat route (`needsClarification` is an
optional boolean in the source; absent behaves as `false`). -/
structure DeleteSearch where
  searchTerm : Option String
  date : Option String
  time : Option String
  timeRangeStart : Option String
  timeRangeEnd : Option String
  needsClarification : Bool
  clarificationQuestion : Option String
deriving DecidableEq, Repr

/-- Interface `ChatResponse` of the chat route: the shape expected from the
completion engine. -/
structure ChatResponse where
  message : String
  speech : Option String
  action : String
  appointment : Option AppointmentData
  readRange : Option String
  deleteSearch : Option DeleteSearch
deriving DecidableEq, Repr

/-- Interface `CalendarEvent` of the chat route.  The source field named
`end` is called `stop` here (`end` is a Lean keyword). -/
structure CalendarEvent where
  id : String
  title : String
  start : String
  stop : String
  location : Option String
  calendarId : Option String := none
  calendarName : Option String := none
  calendarColor : Option String := none
deriving DecidableEq, Repr

/-- Step of the chat handler right after the completion-engine call: either
an immediate JSON response or continuation with the parsed value. -/
inductive ParseStep where
  | respond (r : ChatResponse)
  | proceed (parsed : ChatResponse)
deriving DecidableEq, Repr

/-- The fallback response body returned when `JSON.parse` throws. -/
def parseFallbackResponse : ChatResponse :=
  { message := "I had trouble understanding that. Could you rephrase?"
    speech := some "I had trouble understanding that. Could you rephrase?"
    action := "none"
    appointment := none
    readRange := none
    deleteSearch := none }

/-- Embedding of the `try { parsed = JSON.parse(content) } catch { ... }`
block of the chat route.  `JSON.parse` into the expected shape is an
external runtime facility, taken as the parameter `parseJson`; `none` stands
for a thrown parse exception. -/
def handleModelContent (parseJson : String → Option ChatResponse) (content : String) :
    ParseStep :=
  match parseJson content with
  | none => .respond parseFallbackResponse
  | some parsed => .proceed parsed

/-! ## Chat route: multi-calendar read merge -/

/-- Result of one per-calendar fetch: `error` stands for a non-OK response or
a thrown exception (both `return []` in the source), `ok` for the mapped
event list. -/
def fetchedEvents (result : Except String (List CalendarEvent)) : List CalendarEvent :=
  match result with
  | .error _ => []
  | .ok evs => evs

/-- Embedding of the merge step of the read branch:
`allEventsArrays.flat().sort((a, b) => a.start.localeCompare(b.start))`
over the settled per-calendar results (`Promise.all`). -/
def mergeCalendarResults (results : List (Except String (List CalendarEvent))) :
    List CalendarEvent :=
  ((results.map fetchedEvents).flatten).mergeSort (fun a b => a.start ≤ b.start)

/-! ## Chat route: delete search (filter cascade and outcome mapping) -/

/-- Substring containment, embedding `String.prototype.includes`. -/
def strContains (s pattern : String) : Bool :=
  decide (pattern.toList <:+: s.toList)

/-- Embedding of JavaScript `Number(s)` restricted to the strings the delete
filters feed it: `""` coerces to `0`, a digit string to its value, anything
else to `NaN` (`none`).  (Signs, fractions and exotic numeric syntax do not
occur in the modelled `HH:MM` inputs.) -/
def jsNumberOpt (cs : List Char) : Option Nat :=
  if cs.isEmpty then some 0
  else if cs.all Char.isDigit then
    some (cs.foldl (fun acc c => acc * 10 + (c.toNat - 48)) 0)
  else none

/-- Embedding of `String.prototype.split` with a one-character separator. -/
def splitChars (sep : Char) : List Char → List (List Char)
  | [] => [[]]
  | c :: cs =>
    if c = sep then [] :: splitChars sep cs
    else
      match splitChars sep cs with
      | [] => [[c]]
      | h :: t => (c :: h) :: t

/-- Embedding of the title filter `if (searchTerm) { events.filter(e =>
e.title.toLowerCase().includes(searchLower)) }` (an empty search term is
falsy and skips the filter). -/
def filterBySearchTerm (searchTerm : Option String) (events : List CalendarEvent) :
    List CalendarEvent :=
  match searchTerm with
  | some t =>
    if t == "" then events
    else events.filter (fun e => strContains (jsToLower e.title) (jsToLower t))
  | none => events

/-- The per-event predicate of the specific-time filter: all-day events (no
`"T"` in `start`) are excluded; otherwise the event's local hour must equal
the target hour and its minute must be within 30 of the target minute.
`localTime` embeds `(new Date(s).getHours(), new Date(s).getMinutes())`
(host-timezone dependent, hence a parameter); a `none` component stands for
`NaN`/`undefined`, whose JavaScript comparisons are all false. -/
def timeMatches (localTime : String → Nat × Nat) (fh fm : Option Nat)
    (e : CalendarEvent) : Bool :=
  strContains e.start "T" &&
    match fh, fm with
    | some fh, some fm =>
      let h := (localTime e.start).1
      let m := (localTime e.start).2
      h == fh && ((m : Int) - (fm : Int)).natAbs ≤ 30
    | _, _ => false

/-- Embedding of the specific-time filter `if (filterTime) { ... }` with the
`filterTime.split(":").map(Number)` destructuring. -/
def filterByTime (localTime : String → Nat × Nat) (time : Option String)
    (events : List CalendarEvent) : List CalendarEvent :=
  match time with
  | some t =>
    if t == "" then events
    else
      let parts := (splitChars ':' t.toList).map jsNumberOpt
      events.filter (timeMatches localTime (parts.getD 0 none) (parts.getD 1 none))
  | none => events

/-- The per-event predicate of the time-range filter: all-day events are
excluded; otherwise the event's local minutes-of-day must lie within
`[rangeStart, rangeEnd]` inclusive. -/
def rangeMatches (localTime : String → Nat × Nat) (sh sm eh em : Option Nat)
    (e : CalendarEvent) : Bool :=
  strContains e.start "T" &&
    match sh, sm, eh, em with
    | some sh, some sm, some eh, some em =>
      let eventMinutes := (localTime e.start).1 * 60 + (localTime e.start).2
      decide (sh * 60 + sm ≤ eventMinutes) && decide (eventMinutes ≤ eh * 60 + em)
    | _, _, _, _ => false

/-- Embedding of the time-range filter
`if (filterTimeRangeStart && filterTimeRangeEnd) { ... }`. -/
def filterByTimeRange (localTime : String → Nat × Nat)
    (timeRangeStart timeRangeEnd : Option String) (events : List CalendarEvent) :
    List CalendarEvent :=
  match timeRangeStart, timeRangeEnd with
  | some a, some b =>
    if a == "" || b == "" then events
    else
      let sParts := (splitChars ':' a.toList).map jsNumberOpt
      let eParts := (splitChars ':' b.toList).map jsNumberOpt
      events.filter (rangeMatches localTime (sParts.getD 0 none) (sParts.getD 1 none)
        (eParts.getD 0 none) (eParts.getD 1 none))
  | _, _ => events

/-- The delete filter cascade, in source order: title substring, then
specific time, then time range. -/
def applyDeleteFilters (localTime : String → Nat × Nat) (search : DeleteSearch)
    (events : List CalendarEvent) : List CalendarEvent :=
  filterByTimeRange localTime search.timeRangeStart search.timeRangeEnd
    (filterByTime localTime search.time
      (filterBySearchTerm search.searchTerm events))

/-- The response shapes the delete branch can produce: the clarification
short-circuit, the no-match response, the single-match confirmation
(action `"delete"` with a `deleteEvent` payload — no deletion is issued),
and the multi-match selection (action `"delete_multiple"`). -/
inductive DeleteSearchResult where
  | clarify (message : String)
  | noMatch (message speech : String)
  | singleMatch (message speech : String) (deleteEvent : CalendarEvent)
  | multipleMatches (message speech : String) (multipleEvents : List CalendarEvent)
deriving DecidableEq, Repr

/-- The zero-candidate response message. -/
def noMatchMessage : String :=
  "I couldn't find any appointments matching that. Can you give me more details like the exact time or what the appointment is for?"

/-- The zero-candidate response speech. -/
def noMatchSpeech : String :=
  "I couldn't find that appointment. Can you give me more details?"

/-- The multi-candidate response message, built from the full candidate
count (before the display cap). -/
def multipleMessage (n : Nat) : String :=
  let plural := if n > 1 then "s" else ""
  "I found " ++ toString n ++ " appointment" ++ plural ++
    " matching your request. Select which ones to delete:"

/-- The multi-candidate response speech, also carrying the full count. -/
def multipleSpeech (n : Nat) : String :=
  "Found " ++ toString n ++ " matching appointments. Please select on screen."

/-- The single-candidate confirmation speech; `fmtTime` embeds the
`toLocaleTimeString` rendering of the event start (all-day events render as
`"all day"`). -/
def singleSpeech (fmtTime : String → String) (evt : CalendarEvent) : String :=
  let evtTime := if strContains evt.start "T" then fmtTime evt.start else "all day"
  "Delete " ++ evt.title ++ " at " ++ evtTime ++ "?"

/-- Embedding of the outcome mapping at the end of the delete branch: zero
filtered candidates, exactly one (returned for confirmation), or several
(display list capped to the first ten via `events.slice(0, 10)`). -/
def deleteSearchOutcome (fmtTime : String → String) (parsedMessage : String)
    (events : List CalendarEvent) : DeleteSearchResult :=
  match events with
  | [] => .noMatch noMatchMessage noMatchSpeech
  | [evt] => .singleMatch parsedMessage (singleSpeech fmtTime evt) evt
  | evts => .multipleMatches (multipleMessage evts.length) (multipleSpeech evts.length)
      (evts.take 10)

/-- Embedding of the whole delete branch after the calendar fetches: the
`needsClarification` short-circuit, then the filter cascade, then the
outcome mapping. -/
def deleteSearchFlow (localTime : String → Nat × Nat) (fmtTime : String → String)
    (search : DeleteSearch) (parsedMessage : String)
    (fetched : List CalendarEvent) : DeleteSearchResult :=
  if search.needsClarification then .clarify parsedMessage
  else deleteSearchOutcome fmtTime parsedMessage (applyDeleteFilters localTime search fetched)

/-- The string literals of the `switch (rangeType.toLowerCase())` cases. -/
def rangeEnumTokens : List String :=
  ["today", "yesterday", "tomorrow", "last_week", "last week", "past week",
   "this_week", "this week", "next_week", "next week", "last_month",
   "last month", "past month", "upcoming", "schedule"]

/-- Number of days of a month in the proleptic Gregorian calendar. -/
def daysInMonth (y m : Int) : Int :=
  if m = 2 then (if (y % 4 = 0 ∧ y % 100 ≠ 0) ∨ y % 400 = 0 then 29 else 28)
  else if m = 4 ∨ m = 6 ∨ m = 9 ∨ m = 11 then 30 else 31

/-- A valid civil date: month in range and day within the month. -/
def validCivilDate (y m d : Int) : Prop :=
  1 ≤ m ∧ m ≤ 12 ∧ 1 ≤ d ∧ d ≤ daysInMonth y m

instance (y m d : Int) : Decidable (validCivilDate y m d) := by
  unfold validCivilDate
  infer_instance

/-! ## Theorems -/

/-- Every branch of the range-token switch yields a start day no later than
its end day. -/
theorem rangeDays_fst_le_snd (t : Int) (s : String) :
    (rangeDays t s).1 ≤ (rangeDays t s).2 := by
  unfold rangeDays
  split <;> dsimp only <;> omega

/-- C1: a token matching `week_of:YYYY-MM-DD` resolves to the
Sunday-to-Saturday week containing that date — the week start is the date
minus its day-of-week index (Sunday = 0) and the end is six days later,
bounds at 00:00:00 and 23:59:59 in the fixed civil timezone; in particular
`week_of:2026-03-18` (a Wednesday) yields the days 2026-03-15 through
2026-03-21, independent of the current day `t` and for any offset `tz`. -/
theorem dateRange_week_of (t : Int) (tz tok : String) (y m d : Int)
    (hw : matchWeekOf tok = some (y, m, d)) :
    calculateDateRange t tz tok =
      { timeMin := formatDate (jsMkDay y (m - 1) d - dayOfWeek (jsMkDay y (m - 1) d)) ++
          "T00:00:00" ++ tz
        timeMax := formatDate (jsMkDay y (m - 1) d - dayOfWeek (jsMkDay y (m - 1) d) + 6) ++
          "T23:59:59" ++ tz } ∧
    calculateDateRange t tz "week_of:2026-03-18" =
      { timeMin := "2026-03-15T00:00:00" ++ tz
        timeMax := "2026-03-21T23:59:59" ++ tz } := by
  constructor
  · simp only [calculateDateRange, hw]
  · have hw18 : matchWeekOf "week_of:2026-03-18" = some (2026, 3, 18) := by decide
    simp only [calculateDateRange, hw18]
    congr 1

/-- C1 witness: the theorem applied at the token of the spec's example. -/
theorem dateRange_week_of_witness :
    matchWeekOf "week_of:2026-03-18" = some (2026, 3, 18) ∧
    calculateDateRange 0 "-08:00" "week_of:2026-03-18" =
      { timeMin := "2026-03-15T00:00:00" ++ "-08:00"
        timeMax := "2026-03-21T23:59:59" ++ "-08:00" } :=
  ⟨by decide, (dateRange_week_of 0 "-08:00" "week_of:2026-03-18" 2026 3 18 (by decide)).2⟩

/-- C2: for every range token (in particular every token of the fixed
vocabulary), the resolver returns a start bound at 00:00:00 and an end bound
at 23:59:59 of civil days in the fixed timezone, with start ≤ end: either
both bounds lie on the same civil day, or the day prefixes render days
`a ≤ b`. -/
theorem dateRange_start_le_end (t : Int) (tz tok : String) :
    ∃ p1 p2 : String,
      (calculateDateRange t tz tok).timeMin = p1 ++ "T00:00:00" ++ tz ∧
      (calculateDateRange t tz tok).timeMax = p2 ++ "T23:59:59" ++ tz ∧
      (p1 = p2 ∨ ∃ a b : Int, a ≤ b ∧ p1 = formatDate a ∧ p2 = formatDate b) := by
  rcases hw : matchWeekOf tok with _ | ⟨y, m, d⟩
  · rcases hi : matchIsoDate tok with _ | v
    · simp only [calculateDateRange, hw, hi]
      exact ⟨_, _, rfl, rfl, .inr ⟨_, _, rangeDays_fst_le_snd t (jsToLower tok), rfl, rfl⟩⟩
    · simp only [calculateDateRange, hw, hi]
      exact ⟨tok, tok, rfl, rfl, .inl rfl⟩
  · simp only [calculateDateRange, hw]
    exact ⟨_, _, rfl, rfl, .inr ⟨_, _, by omega, rfl, rfl⟩⟩

/-- C9: a token matching neither the `week_of` pattern, nor a bare ISO date,
nor any switch case falls through to the default branch, which returns the
`upcoming` window: today at 00:00:00 through today plus seven days at
23:59:59, without erroring. -/
theorem dateRange_default_upcoming (t : Int) (tz tok : String)
    (hw : matchWeekOf tok = none) (hi : matchIsoDate tok = none)
    (he : jsToLower tok ∉ rangeEnumTokens) :
    calculateDateRange t tz tok =
      { timeMin := formatDate t ++ "T00:00:00" ++ tz
        timeMax := formatDate (t + 7) ++ "T23:59:59" ++ tz } := by
  have hr : rangeDays t (jsToLower tok) = (t, t + 7) := by
    unfold rangeDays
    split
    all_goals
      first
      | rfl
      | (exfalso; apply he; simp_all [rangeEnumTokens])
  simp only [calculateDateRange, hw, hi, hr]

/-- C9 witness: the unrecognized token `"nonsense"` resolves to the default
window. -/
theorem dateRange_default_upcoming_witness :
    matchWeekOf "nonsense" = none ∧ matchIsoDate "nonsense" = none ∧
    jsToLower "nonsense" ∉ rangeEnumTokens ∧
    calculateDateRange 0 "-08:00" "nonsense" =
      { timeMin := formatDate 0 ++ "T00:00:00" ++ "-08:00"
        timeMax := formatDate 7 ++ "T23:59:59" ++ "-08:00" } :=
  ⟨by decide, by decide, by decide,
    dateRange_default_upcoming 0 "-08:00" "nonsense" (by decide) (by decide) (by decide)⟩

/-- Rendering an hour/minute pair with `pad2Nat` and parsing it back with
the `HH:MM` matcher is the identity on in-range times. -/
theorem matchHM_pad2Nat : ∀ h : Nat, h < 24 → ∀ m : Nat, m < 60 →
    matchHM (pad2Nat h ++ ":" ++ pad2Nat m) = some (h, m) := by decide

/-- A string accepted by the `HH:MM` matcher is not empty. -/
theorem matchHM_ne_empty {s : String} {p : Nat × Nat} (hp : matchHM s = some p) :
    s ≠ "" := by
  intro he
  subst he
  simp [matchHM, matchHMChars, String.toList] at hp

/-- C3: for a timed (non-all-day) create request with nonempty required
fields, a well-formed date, a valid `HH:MM` time, and a positive duration,
the built event is accepted and its end instant is the start time plus the
duration taken modulo 24 hours (`eh * 60 + em = (h * 60 + m + dur) % 1440`),
rendered on the same date component as the start. -/
theorem timedEventEnd (body : EventRequest) (h m dur : Nat)
    (hcal : body.calendarId ≠ "") (htitle : body.title ≠ "") (hdate : body.date ≠ "")
    (hiso : (matchIsoDate body.date).isSome) (hall : body.allDay = false)
    (hh : h < 24) (hm : m < 60)
    (htime : body.time = some (pad2Nat h ++ ":" ++ pad2Nat m))
    (hdur : body.duration = some dur) (hdurpos : 0 < dur) :
    ∃ eh em : Nat,
      eh * 60 + em = (h * 60 + m + dur) % 1440 ∧ eh < 24 ∧ em < 60 ∧
      buildEventObject body = .ok (withRecurrence body.recurrence
        { summary := body.title
          description := orUndefined body.description
          location := orUndefined body.location
          start := { dateTime := some (body.date ++ "T" ++ (pad2Nat h ++ ":" ++ pad2Nat m) ++ ":00")
                     timeZone := some "America/Los_Angeles" }
          stop := { dateTime := some (body.date ++ "T" ++
                      (pad2Nat ((h * 60 + m + dur) / 60 % 24) ++ ":" ++
                        pad2Nat ((h * 60 + m + dur) % 60)) ++ ":00")
                    timeZone := some "America/Los_Angeles" } }) := by
  refine ⟨(h * 60 + m + dur) / 60 % 24, (h * 60 + m + dur) % 60, by omega, by omega, by omega, ?_⟩
  obtain ⟨⟨y, mo, da⟩, hv⟩ := Option.isSome_iff_exists.mp hiso
  have hmm := matchHM_pad2Nat h hh m hm
  have hne : (pad2Nat h ++ ":" ++ pad2Nat m) ≠ "" := matchHM_ne_empty hmm
  have hdur0 : (dur == 0) = false := by simp; omega
  simp [buildEventObject, hv, hall, htime, hmm, hcal, htitle, hdate, hne, strFalsy, hdur, hdur0]

/-- C3 witness: a 23:30 start with a 60-minute duration produces an end time
of 00:30 rendered on the same (start) date. -/
theorem timedEventEnd_witness :
    buildEventObject
      { calendarId := "primary", title := "Dentist", description := none,
        location := none, date := "2026-03-15", time := some "23:30",
        duration := some 60, allDay := false, recurrence := none } =
    .ok { summary := "Dentist", description := none, location := none,
          start := { dateTime := some "2026-03-15T23:30:00"
                     timeZone := some "America/Los_Angeles" },
          stop := { dateTime := some "2026-03-15T00:30:00"
                    timeZone := some "America/Los_Angeles" },
          recurrence := none } := by
  have h := timedEventEnd
    { calendarId := "primary", title := "Dentist", description := none,
      location := none, date := "2026-03-15", time := some "23:30",
      duration := some 60, allDay := false, recurrence := none }
    23 30 60 (by decide) (by decide) (by decide) (by decide) rfl
    (by decide) (by decide) (by decide) rfl (by decide)
  obtain ⟨eh, em, _, _, _, hb⟩ := h
  exact hb.trans (by decide)

/-- C8: for an all-day create request with nonempty required fields, a
well-formed and valid date, and no interfering time field, the built event
is accepted with a date-only start equal to the request date and a date-only
exclusive end equal to the request date plus one day. -/
theorem allDayEventEnd (body : EventRequest) (y m d : Int)
    (hcal : body.calendarId ≠ "") (htitle : body.title ≠ "") (hdate : body.date ≠ "")
    (hiso : matchIsoDate body.date = some (y, m, d))
    (_hvalid : validCivilDate y m d) (hall : body.allDay = true)
    (hte : strFalsy body.time = true ∨ ∃ p, matchHM ((body.time).getD "") = some p) :
    buildEventObject body = .ok (withRecurrence body.recurrence
      { summary := body.title
        description := orUndefined body.description
        location := orUndefined body.location
        start := { date := some body.date }
        stop := { date := some (formatDate (daysFromCivil y m d + 1)) } }) := by
  rcases hte with hte | ⟨p, hp⟩
  · simp [buildEventObject, hiso, hall, hcal, htitle, hdate, hte]
  · simp [buildEventObject, hiso, hall, hcal, htitle, hdate, hp]

/-- C8 witness: an all-day event on 2026-03-15 gets the exclusive end date
2026-03-16. -/
theorem allDayEventEnd_witness :
    buildEventObject
      { calendarId := "primary", title := "Birthday", description := none,
        location := none, date := "2026-03-15", time := none,
        duration := none, allDay := true, recurrence := none } =
    .ok { summary := "Birthday", description := none, location := none,
          start := { date := some "2026-03-15" },
          stop := { date := some "2026-03-16" },
          recurrence := none } := by
  have h := allDayEventEnd
    { calendarId := "primary", title := "Birthday", description := none,
      location := none, date := "2026-03-15", time := none,
      duration := none, allDay := true, recurrence := none }
    2026 3 15 (by decide) (by decide) (by decide) (by decide) (by decide) rfl
    (Or.inl rfl)
  exact h.trans (by decide)

/-- C10 counterexample: the empty input string sanitizes to the empty string
but is caught by the earlier `!text` falsiness guard, so the response is the
"Text is required" validation error, not the "No speakable text" one the
claim names. -/
theorem ttsEmptyString_counterexample :
    cleanTextOf "" = "" ∧ ttsValidate (.strVal "") ≠ .errNoSpeakable ∧
    ttsValidate (.strVal "") = .errTextRequired := by decide

/-- C10 (amended): for a nonempty input string whose sanitized text is
empty, the TTS route fails with the "No speakable text" validation error
(status 400) before any synthesis call; a missing or non-string text field
fails with the "Text is required" validation error (status 400), likewise
before any synthesis call. -/
theorem ttsValidation (s : String) (hne : s ≠ "") (hclean : cleanTextOf s = "") :
    ttsValidate (.strVal s) = .errNoSpeakable ∧
    ttsValidate .missing = .errTextRequired ∧
    ttsValidate .notString = .errTextRequired := by
  refine ⟨?_, rfl, rfl⟩
  simp [ttsValidate, hne, hclean]

/-- C10 witness: a whitespace-only input exercises the amended theorem. -/
theorem ttsValidation_witness :
    " " ≠ "" ∧ cleanTextOf " " = "" ∧
    (ttsValidate (.strVal " ") = .errNoSpeakable ∧
     ttsValidate .missing = .errTextRequired ∧
     ttsValidate .notString = .errTextRequired) :=
  ⟨by decide, by decide, ttsValidation " " (by decide) (by decide)⟩

/-- C7: when the completion-engine output does not parse as the expected
JSON shape, the chat handler responds with the fixed fallback — a "please
rephrase" message and speech, action `"none"`, no appointment and no read
range — instead of propagating the parse exception. -/
theorem parseFailureFallback (parseJson : String → Option ChatResponse)
    (content : String) (hfail : parseJson content = none) :
    handleModelContent parseJson content = .respond parseFallbackResponse ∧
    parseFallbackResponse.action = "none" ∧
    parseFallbackResponse.message = "I had trouble understanding that. Could you rephrase?" ∧
    parseFallbackResponse.speech = some "I had trouble understanding that. Could you rephrase?" ∧
    parseFallbackResponse.appointment = none ∧
    parseFallbackResponse.readRange = none := by
  refine ⟨?_, rfl, rfl, rfl, rfl, rfl⟩
  simp [handleModelContent, hfail]

/-- C7 witness: a parser that rejects everything hits the fallback. -/
theorem parseFailureFallback_witness :
    (fun _ : String => (none : Option ChatResponse)) "not json" = none ∧
    (handleModelContent (fun _ => none) "not json" = .respond parseFallbackResponse ∧
     parseFallbackResponse.action = "none" ∧
     parseFallbackResponse.message = "I had trouble understanding that. Could you rephrase?" ∧
     parseFallbackResponse.speech = some "I had trouble understanding that. Could you rephrase?" ∧
     parseFallbackResponse.appointment = none ∧
     parseFallbackResponse.readRange = none) :=
  ⟨rfl, parseFailureFallback (fun _ => none) "not json" rfl⟩

/-- C6: in the multi-calendar read, a failed per-calendar fetch contributes
the empty event list, and the merged result is a permutation of the
concatenation of all per-calendar lists, sorted ascending by start value. -/
theorem mergeCalendarResults_spec (results : List (Except String (List CalendarEvent))) :
    (∀ msg, fetchedEvents (.error msg) = []) ∧
    List.Perm (mergeCalendarResults results) ((results.map fetchedEvents).flatten) ∧
    (mergeCalendarResults results).Pairwise (fun a b => a.start ≤ b.start) := by
  refine ⟨fun _ => rfl, List.mergeSort_perm _ _, ?_⟩
  have hs := @List.sorted_mergeSort CalendarEvent
    (fun a b => decide (a.start ≤ b.start))
    (fun a b c hab hbc => by
      simp only [decide_eq_true_eq] at *
      exact le_trans hab hbc)
    (fun a b => by
      simp only [Bool.or_eq_true, decide_eq_true_eq]
      exact le_total a.start b.start)
    ((results.map fetchedEvents).flatten)
  exact hs.imp (by simp)

/-- The title filter returns a sublist of its input. -/
theorem filterBySearchTerm_sublist (st : Option String) (events : List CalendarEvent) :
    List.Sublist (filterBySearchTerm st events) events := by
  rcases st with _ | t
  · exact List.Sublist.refl _
  · dsimp only [filterBySearchTerm]
    split
    · exact List.Sublist.refl _
    · exact List.filter_sublist _

/-- The specific-time filter returns a sublist of its input. -/
theorem filterByTime_sublist (localTime : String → Nat × Nat) (time : Option String)
    (events : List CalendarEvent) :
    List.Sublist (filterByTime localTime time events) events := by
  rcases time with _ | t
  · exact List.Sublist.refl _
  · dsimp only [filterByTime]
    split
    · exact List.Sublist.refl _
    · exact List.filter_sublist _

/-- The time-range filter returns a sublist of its input. -/
theorem filterByTimeRange_sublist (localTime : String → Nat × Nat)
    (trs tre : Option String) (events : List CalendarEvent) :
    List.Sublist (filterByTimeRange localTime trs tre events) events := by
  rcases trs with _ | a <;> rcases tre with _ | b
  all_goals try exact List.Sublist.refl _
  dsimp only [filterByTimeRange]
  split
  · exact List.Sublist.refl _
  · exact List.filter_sublist _

/-- C5: the delete filter cascade narrows the candidate set at every stage
(each stage is a sublist of its input), and every event in the final
candidate set satisfies all the filters that were present: a
case-insensitive title substring match when a nonempty search term is given;
a timed start whose local hour equals the target hour with its minute within
30 of the target minute when a well-formed specific time is given; and a
timed start whose local minutes-of-day lie within the inclusive range when a
well-formed time range is given. -/
theorem deleteFilterCascade (localTime : String → Nat × Nat) (search : DeleteSearch)
    (events : List CalendarEvent) :
    List.Sublist (filterBySearchTerm search.searchTerm events) events ∧
    List.Sublist (filterByTime localTime search.time (filterBySearchTerm search.searchTerm events))
      (filterBySearchTerm search.searchTerm events) ∧
    List.Sublist (applyDeleteFilters localTime search events)
      (filterByTime localTime search.time (filterBySearchTerm search.searchTerm events)) ∧
    ∀ e ∈ applyDeleteFilters localTime search events,
      (∀ t, search.searchTerm = some t → t ≠ "" →
        strContains (jsToLower e.title) (jsToLower t) = true) ∧
      (∀ t fh fm, search.time = some t → t ≠ "" →
        ((splitChars ':' t.toList).map jsNumberOpt).getD 0 none = some fh →
        ((splitChars ':' t.toList).map jsNumberOpt).getD 1 none = some fm →
        strContains e.start "T" = true ∧ (localTime e.start).1 = fh ∧
        (((localTime e.start).2 : Int) - (fm : Int)).natAbs ≤ 30) ∧
      (∀ a b sh sm eh em, search.timeRangeStart = some a → search.timeRangeEnd = some b →
        a ≠ "" → b ≠ "" →
        ((splitChars ':' a.toList).map jsNumberOpt).getD 0 none = some sh →
        ((splitChars ':' a.toList).map jsNumberOpt).getD 1 none = some sm →
        ((splitChars ':' b.toList).map jsNumberOpt).getD 0 none = some eh →
        ((splitChars ':' b.toList).map jsNumberOpt).getD 1 none = some em →
        strContains e.start "T" = true ∧
        sh * 60 + sm ≤ (localTime e.start).1 * 60 + (localTime e.start).2 ∧
        (localTime e.start).1 * 60 + (localTime e.start).2 ≤ eh * 60 + em) := by
  refine ⟨filterBySearchTerm_sublist _ _, filterByTime_sublist _ _ _,
    filterByTimeRange_sublist _ _ _ _, ?_⟩
  intro e he
  have he2 : e ∈ filterByTime localTime search.time (filterBySearchTerm search.searchTerm events) :=
    (filterByTimeRange_sublist _ _ _ _).subset he
  have he1 : e ∈ filterBySearchTerm search.searchTerm events :=
    (filterByTime_sublist _ _ _).subset he2
  refine ⟨?_, ?_, ?_⟩
  · intro t ht htne
    rw [ht] at he1
    have hb : (t == "") = false := by simpa using htne
    simp only [filterBySearchTerm, hb, Bool.false_eq_true, if_false] at he1
    exact (List.mem_filter.mp he1).2
  · intro t fh fm ht htne hfh hfm
    rw [ht] at he2
    have hb : (t == "") = false := by simpa using htne
    simp only [filterByTime, hb, Bool.false_eq_true, if_false] at he2
    have hp := (List.mem_filter.mp he2).2
    rw [hfh, hfm] at hp
    simp only [timeMatches, Bool.and_eq_true, beq_iff_eq, decide_eq_true_eq] at hp
    exact ⟨hp.1, hp.2.1, hp.2.2⟩
  · intro a b sh sm eh em ha hb hane hbne hsh hsm heh hem
    have hae : (a == "") = false := by simpa using hane
    have hbe : (b == "") = false := by simpa using hbne
    unfold applyDeleteFilters at he
    rw [ha, hb] at he
    simp only [filterByTimeRange, hae, hbe, Bool.or_self, Bool.false_eq_true, if_false] at he
    have hp := (List.mem_filter.mp he).2
    rw [hsh, hsm, heh, hem] at hp
    simp only [rangeMatches, Bool.and_eq_true, decide_eq_true_eq] at hp
    exact ⟨hp.1, hp.2.1, hp.2.2⟩

/-- C5 witness: a timed "Dentist" event surviving all three filters
satisfies the title, specific-time, and time-range conditions. -/
theorem deleteFilterCascade_witness :
    strContains (jsToLower "Dentist") (jsToLower "den") = true ∧
    (strContains "2026-03-15T14:10:00" "T" = true ∧ (14 : Nat) = 14 ∧
      ((10 : Int) - 0).natAbs ≤ 30) ∧
    (strContains "2026-03-15T14:10:00" "T" = true ∧
      13 * 60 + 0 ≤ 14 * 60 + 10 ∧ 14 * 60 + 10 ≤ 15 * 60 + 0) := by
  have h := (deleteFilterCascade (fun _ => (14, 10))
    { searchTerm := some "den", date := none, time := some "14:00",
      timeRangeStart := some "13:00", timeRangeEnd := some "15:00",
      needsClarification := false, clarificationQuestion := none }
    [{ id := "1", title := "Dentist", start := "2026-03-15T14:10:00",
       stop := "2026-03-15T15:10:00", location := none },
     { id := "2", title := "Lunch", start := "2026-03-15",
       stop := "2026-03-16", location := none }]).2.2.2
    { id := "1", title := "Dentist", start := "2026-03-15T14:10:00",
      stop := "2026-03-15T15:10:00", location := none }
    (by decide)
  refine ⟨h.1 "den" rfl (by decide), ?_, ?_⟩
  · exact h.2.1 "14:00" 14 0 rfl (by decide) (by decide) (by decide)
  · exact h.2.2 "13:00" "15:00" 13 0 15 0 rfl rfl (by decide) (by decide)
      (by decide) (by decide) (by decide) (by decide)

/-- C4: with `needsClarification = false`, the delete outcome depends only
on the candidate list surviving the filter cascade: empty yields the
no-match response, a single candidate yields the confirmation response
carrying that event (no deletion is performed — the result is only a
response), and two or more candidates yield the multiple-match response
whose displayed list is the first ten candidates while message and speech
carry the full candidate count. -/
theorem deleteOutcomeMapping (localTime : String → Nat × Nat) (fmtTime : String → String)
    (search : DeleteSearch) (parsedMessage : String)
    (fetched candidates : List CalendarEvent)
    (hnc : search.needsClarification = false)
    (hc : applyDeleteFilters localTime search fetched = candidates) :
    (candidates = [] →
      deleteSearchFlow localTime fmtTime search parsedMessage fetched =
        .noMatch noMatchMessage noMatchSpeech) ∧
    (∀ evt, candidates = [evt] →
      deleteSearchFlow localTime fmtTime search parsedMessage fetched =
        .singleMatch parsedMessage (singleSpeech fmtTime evt) evt) ∧
    (2 ≤ candidates.length →
      deleteSearchFlow localTime fmtTime search parsedMessage fetched =
        .multipleMatches (multipleMessage candidates.length)
          (multipleSpeech candidates.length) (candidates.take 10) ∧
      (candidates.take 10).length = min 10 candidates.length) := by
  simp only [deleteSearchFlow, hnc, Bool.false_eq_true, if_false, hc]
  refine ⟨?_, ?_, ?_⟩
  · intro h
    rw [h]
    rfl
  · intro evt h
    rw [h]
    rfl
  · intro h2
    rcases candidates with _ | ⟨a, _ | ⟨b, t⟩⟩
    · simp at h2
    · simp at h2
    · exact ⟨rfl, by simp; omega⟩

/-- C4 witness: two candidates surviving an unfiltered search produce the
multiple-match response showing both and counting two. -/
theorem deleteOutcomeMapping_witness :
    deleteSearchFlow (fun _ => (14, 0)) (fun _ => "2:00 PM")
      { searchTerm := none, date := none, time := none,
        timeRangeStart := none, timeRangeEnd := none,
        needsClarification := false, clarificationQuestion := none }
      "Which ones?"
      [{ id := "1", title := "Dentist", start := "2026-03-15T14:00:00",
         stop := "2026-03-15T15:00:00", location := none },
       { id := "2", title := "Dentist follow-up", start := "2026-03-16T14:00:00",
         stop := "2026-03-16T15:00:00", location := none }] =
      .multipleMatches (multipleMessage 2) (multipleSpeech 2)
        [{ id := "1", title := "Dentist", start := "2026-03-15T14:00:00",
           stop := "2026-03-15T15:00:00", location := none },
         { id := "2", title := "Dentist follow-up", start := "2026-03-16T14:00:00",
           stop := "2026-03-16T15:00:00", location := none }] ∧
    ([({ id := "1", title := "Dentist", start := "2026-03-15T14:00:00",
         stop := "2026-03-15T15:00:00", location := none } : CalendarEvent),
      { id := "2", title := "Dentist follow-up", start := "2026-03-16T14:00:00",
        stop := "2026-03-16T15:00:00", location := none }].take 10).length = min 10 2 :=
  (deleteOutcomeMapping (fun _ => (14, 0)) (fun _ => "2:00 PM")
    { searchTerm := none, date := none, time := none,
      timeRangeStart := none, timeRangeEnd := none,
      needsClarification := false, clarificationQuestion := none }
    "Which ones?"
    [{ id := "1", title := "Dentist", start := "2026-03-15T14:00:00",
       stop := "2026-03-15T15:00:00", location := none },
     { id := "2", title := "Dentist follow-up", start := "2026-03-16T14:00:00",
       stop := "2026-03-16T15:00:00", location := none }]
    [{ id := "1", title := "Dentist", start := "2026-03-15T14:00:00",
       stop := "2026-03-15T15:00:00", location := none },
     { id := "2", title := "Dentist follow-up", start := "2026-03-16T14:00:00",
       stop := "2026-03-16T15:00:00", location := none }]
    rfl rfl).2.2 (by decide)

end CalAssist
